import Mathlib

/-!
Verification of the MediaSDK HEVC encoder control-plane logic:
the Gen12 capability/defaults feature block
(hevcehw_g12_caps.cpp) and the asynchronous encode
submit/drain protocol of the HEVC 10-bit encode tutorial
(simple_encode_hevc10.cpp), shallowly embedded in Lean.
-/

/-! ### Status codes (mfxStatus)
Statuses are signed integers: 0 is success, positive values are
warnings, negative values are errors. -/

def MFX_ERR_NONE : Int := 0

def MFX_ERR_MEMORY_ALLOC : Int := -4

def MFX_ERR_NOT_FOUND : Int := -9

def MFX_ERR_MORE_DATA : Int := -10

def MFX_ERR_NOT_ENOUGH_BUFFER : Int := -11

def MFX_WRN_DEVICE_BUSY : Int := 2

/-! ### Coding-option tri-state and helpers -/

/-- Modelled from the spec: the power-efficient (LowPower) flag is a
tri-state coding option (unknown / explicitly on / explicitly off);
the SDK header that defines the numeric encoding (unknown = 0,
on = 16, off = 32) and the IsOn helper is not under src/. -/
def MFX_CODINGOPTION_ON : Nat := 16

/-- Modelled from the spec: explicit-off value of the tri-state
coding option, see MFX_CODINGOPTION_ON. -/
def MFX_CODINGOPTION_OFF : Nat := 32

/-- Modelled from the spec: IsOn tests whether a tri-state coding
option is explicitly on; the defining SDK header is not under src/. -/
def IsOn (x : Nat) : Bool := x == MFX_CODINGOPTION_ON

/-- Modelled from the spec: IsOff tests whether a tri-state coding
option is explicitly off; the defining SDK header is not under src/. -/
def IsOff (x : Nat) : Bool := x == MFX_CODINGOPTION_OFF

/-- Modelled from the spec: target-usage is range-checked to [lo, hi]
and defaulted (to dflt) if out of range before lookup; the helper
CheckRangeOrSetDefault itself is declared outside src/. -/
def CheckRangeOrSetDefault (v lo hi dflt : Nat) : Nat :=
  if lo ≤ v ∧ v ≤ hi then v else dflt

/-! ### Data model for the Gen12 caps feature block
(hevcehw_g12_caps.cpp) -/

/-- Hardware capability descriptor: the fields of ENCODE_CAPS_HEVC
read or written in hevcehw_g12_caps.cpp. -/
structure EncodeCaps where
  MaxNum_Reference0 : Nat
  MaxNum_Reference1 : Nat
  SliceIPOnly : Bool
  Color420Only : Bool
  YUV422ReconSupport : Bool
  bSingleSliceMultiTile : Bool
deriving DecidableEq, Repr

/-- The fields of dpar.mvp.mfx read by the GetMaxNumRef layer. -/
structure MfxInfo where
  GopRefDist : Nat
  LowPower : Nat
  TargetUsage : Nat
deriving DecidableEq, Repr

/-- Defaults::Param as consumed by the GetMaxNumRef layer:
the base video parameters (mvp) and the hardware caps. -/
structure DefaultsParam where
  mvp : MfxInfo
  caps : EncodeCaps
deriving DecidableEq, Repr

/-- The nRef[3][2][7] table from the GetMaxNumRef layer in
Caps::Query1NoCaps: rows are VME, VDENC P, Gen12 VDENC RA B;
within a row, direction 0 then direction 1; columns are
target-usage tiers 1..7. -/
def nRefTable : List (List (List Nat)) :=
  [ [ [4, 4, 3, 3, 3, 1, 1],
      [2, 2, 1, 1, 1, 1, 1] ],
    [ [3, 3, 2, 2, 2, 1, 1],
      [3, 3, 2, 2, 2, 1, 1] ],
    [ [2, 2, 1, 1, 1, 1, 1],
      [1, 1, 1, 1, 1, 1, 1] ] ]

/-- Table access nRef[idx][dir][tu]. -/
def nRefAt (idx dir tu : Nat) : Nat :=
  ((nRefTable.getD idx []).getD dir []).getD tu 0

/-- The operating-mode row index computed by the GetMaxNumRef layer:
idx = bVDEnc * (1 + bBFrames), where bBFrames means GopRefDist > 1
and bVDEnc means the LowPower flag is explicitly on. -/
def refModeIdx (dpar : DefaultsParam) : Nat :=
  (if IsOn dpar.mvp.LowPower then 1 else 0) *
    (1 + (if dpar.mvp.GopRefDist > 1 then 1 else 0))

/-- The pre-clamp table lookup of the GetMaxNumRef layer: the pair
(nRef[idx][0][tu], nRef[idx][1][tu]) after target-usage range check
and decrement, before the hardware-maximum clamp. -/
def nRefPreClamp (dpar : DefaultsParam) : Nat × Nat :=
  let idx := refModeIdx dpar
  let tu := CheckRangeOrSetDefault dpar.mvp.TargetUsage 1 7 4 - 1
  (nRefAt idx 0 tu, nRefAt idx 1 tu)

/-- The GetMaxNumRef chain layer pushed by Caps::Query1NoCaps:
select the table row by mode, range-check target-usage (default 4),
look up both directions, then clamp each against the
hardware-reported maximum for that direction. -/
def getMaxNumRef (dpar : DefaultsParam) : Nat × Nat :=
  let bBFrames := dpar.mvp.GopRefDist > 1
  let bVDEnc := IsOn dpar.mvp.LowPower
  let idx := (if bVDEnc then 1 else 0) * (1 + (if bBFrames then 1 else 0))
  let tu := CheckRangeOrSetDefault dpar.mvp.TargetUsage 1 7 4 - 1
  (min (nRefAt idx 0 tu) dpar.caps.MaxNum_Reference0,
   min (nRefAt idx 1 tu) dpar.caps.MaxNum_Reference1)

/-- The C1 scenario parameter set: target-usage 4, LowPower on,
GopRefDist 1 (no B-frames), hardware maxima (max0, 1). -/
def c1Param (max0 : Nat) : DefaultsParam :=
  { mvp := { GopRefDist := 1, LowPower := MFX_CODINGOPTION_ON, TargetUsage := 4 }
  , caps := { MaxNum_Reference0 := max0, MaxNum_Reference1 := 1
            , SliceIPOnly := false, Color420Only := false
            , YUV422ReconSupport := false, bSingleSliceMultiTile := false } }

/-- C1 counterexample: for target-usage 4, LowPower on, no B-frames,
the pre-clamp table lookup yields (2, 2), not the pair (2, 1) stated
by the claim (the VDENC P row is {3,3,2,2,2,1,1} for both
directions, and tier 4 gives 2 in each). -/
theorem c1_preclamp_counterexample :
    nRefPreClamp (c1Param 4) = (2, 2) ∧ nRefPreClamp (c1Param 4) ≠ (2, 1) := by
  decide

/-- C1 (amended): for target-usage 4, LowPower on, GopRefDist 1,
the mode index selects the power-efficient no-B row (VDENC P,
row 1), the pre-clamp pair is (2, 2), and after clamping against a
direction-1 hardware maximum of 1 (with direction-0 maximum at
least 2) the final pair is (2, 1). -/
theorem c1_refcount_scenario (max0 : Nat) (h : 2 ≤ max0) :
    refModeIdx (c1Param max0) = 1 ∧
    nRefPreClamp (c1Param max0) = (2, 2) ∧
    getMaxNumRef (c1Param max0) = (2, 1) := by
  refine ⟨rfl, rfl, ?_⟩
  simp [getMaxNumRef, c1Param, CheckRangeOrSetDefault, IsOn,
    MFX_CODINGOPTION_ON, nRefAt, nRefTable]
  omega

/-- Witness for C1 at direction-0 maximum 4. -/
theorem c1_refcount_scenario_witness :
    2 ≤ 4 ∧
    (refModeIdx (c1Param 4) = 1 ∧
     nRefPreClamp (c1Param 4) = (2, 2) ∧
     getMaxNumRef (c1Param 4) = (2, 1)) :=
  ⟨by decide, c1_refcount_scenario 4 (by decide)⟩

/-- C2: for every parameter set (hence every mode, B-frame presence
and target-usage), the pair returned by the GetMaxNumRef layer never
exceeds the hardware-reported maxima for the respective directions,
and it equals the table lookup clamped afterwards against those
maxima (lookup first, clamp second). -/
theorem c2_refcount_clamped (dpar : DefaultsParam) :
    (getMaxNumRef dpar).1 ≤ dpar.caps.MaxNum_Reference0 ∧
    (getMaxNumRef dpar).2 ≤ dpar.caps.MaxNum_Reference1 ∧
    getMaxNumRef dpar =
      (min (nRefPreClamp dpar).1 dpar.caps.MaxNum_Reference0,
       min (nRefPreClamp dpar).2 dpar.caps.MaxNum_Reference1) := by
  refine ⟨?_, ?_, ?_⟩ <;>
    simp [getMaxNumRef, nRefPreClamp, refModeIdx]

/-- C3: for every target-usage outside [1, 7] the computation
substitutes the default 4 before the table lookup (the range check
yields 4), the result is total (no error status exists in the value
chain), and the substitution is idempotent: the result equals the
result of re-running the computation with target-usage 4. -/
theorem c3_targetusage_default (dpar : DefaultsParam)
    (h : dpar.mvp.TargetUsage < 1 ∨ 7 < dpar.mvp.TargetUsage) :
    CheckRangeOrSetDefault dpar.mvp.TargetUsage 1 7 4 = 4 ∧
    getMaxNumRef dpar =
      getMaxNumRef { dpar with mvp := { dpar.mvp with TargetUsage := 4 } } := by
  have hout : ¬(1 ≤ dpar.mvp.TargetUsage ∧ dpar.mvp.TargetUsage ≤ 7) := by omega
  constructor
  · simp [CheckRangeOrSetDefault, hout]
  · simp [getMaxNumRef, CheckRangeOrSetDefault, hout]

/-- Witness for C3 at target-usage 9 (out of range). -/
theorem c3_targetusage_default_witness :
    ((c1Param 4).mvp.TargetUsage + 5 < 1 ∨ 7 < 9) ∧
    (CheckRangeOrSetDefault 9 1 7 4 = 4 ∧
     getMaxNumRef { c1Param 4 with mvp := { (c1Param 4).mvp with TargetUsage := 9 } } =
       getMaxNumRef { c1Param 4 with mvp := { (c1Param 4).mvp with TargetUsage := 4 } }) :=
  ⟨Or.inr (by decide),
   c3_targetusage_default
     { c1Param 4 with mvp := { (c1Param 4).mvp with TargetUsage := 9 } }
     (Or.inr (by decide))⟩

/-! ### Caps::Query1NoCaps callback idempotence (C4)
The callback reads the per-feature flag in the DefaultsRegistry
(Glob::Defaults), returns MFX_ERR_NONE at once when it is already
set (MFX_CHECK), and otherwise pushes the GetMaxNumRef layer and
sets the flag. -/

/-- The DefaultsRegistry state visible to the Query1NoCaps callback:
the already-specialized flag for this feature identity and the
number of layers pushed onto the GetMaxNumRef chain. -/
structure DefaultsState where
  bSet : Bool
  chainLen : Nat
deriving DecidableEq, Repr

/-- Modelled from the spec: the MFX_CHECK macro used by the callback
returns the given status when its condition fails; the macro itself
is declared outside src/. Here it is inlined: when bSet already
holds the callback returns MFX_ERR_NONE without pushing; otherwise
it pushes the GetMaxNumRef layer and sets bSet. -/
def query1NoCapsStep (s : DefaultsState) : DefaultsState × Int :=
  if s.bSet then (s, MFX_ERR_NONE)
  else ({ bSet := true, chainLen := s.chainLen + 1 }, MFX_ERR_NONE)

/-- Run the query-stage callback n times; the Bool records whether
every invocation returned MFX_ERR_NONE. -/
def runQueryN : Nat → DefaultsState → DefaultsState × Bool
  | 0, s => (s, true)
  | n + 1, s =>
    let r := query1NoCapsStep s
    let rest := runQueryN n r.1
    (rest.1, (r.2 == MFX_ERR_NONE) && rest.2)

theorem runQueryN_set (n : Nat) (c : Nat) :
    runQueryN n { bSet := true, chainLen := c } =
      ({ bSet := true, chainLen := c }, true) := by
  induction n with
  | zero => rfl
  | succ n ih => simp [runQueryN, query1NoCapsStep, ih]

/-- C4: for every N ≥ 1 invocations of the query stage from a fresh
session state, the side-effecting body runs exactly once (the chain
receives exactly one GetMaxNumRef layer), the guard flag ends set,
and every invocation, including the repeats, returns MFX_ERR_NONE. -/
theorem c4_specialize_once (n : Nat) (h : 1 ≤ n) :
    runQueryN n { bSet := false, chainLen := 0 } =
      ({ bSet := true, chainLen := 1 }, true) := by
  obtain ⟨m, rfl⟩ : ∃ m, n = m + 1 := ⟨n - 1, by omega⟩
  simp [runQueryN, query1NoCapsStep, runQueryN_set]

/-- Witness for C4 at N = 3. -/
theorem c4_specialize_once_witness :
    1 ≤ 3 ∧
    runQueryN 3 { bSet := false, chainLen := 0 } =
      ({ bSet := true, chainLen := 1 }, true) :=
  ⟨by decide, c4_specialize_once 3 (by decide)⟩

/-! ### Caps::Query1WithCaps baseline pass (C5) -/

/-- The parameter fields read by the BLK_HardcodeCaps callback. -/
structure ParMfx where
  LowPower : Nat
  TargetUsage : Nat
deriving DecidableEq, Repr

/-- The baseline pass of the BLK_HardcodeCaps callback pushed by
Caps::Query1WithCaps (the generic-rule assignments before the
SetSpecificCaps specialization hook): SliceIPOnly is assigned from
LowPower and TargetUsage, bSingleSliceMultiTile is cleared, and
YUV422ReconSupport is OR-assigned from Color420Only and LowPower. -/
def hardcodeCapsBaseline (par : ParMfx) (caps : EncodeCaps) : EncodeCaps :=
  let caps1 := { caps with
    SliceIPOnly := IsOn par.LowPower && (par.TargetUsage == 7) }
  let caps2 := { caps1 with bSingleSliceMultiTile := false }
  { caps2 with YUV422ReconSupport :=
      caps2.YUV422ReconSupport || (!caps2.Color420Only && IsOff par.LowPower) }

/-- An incoming capability descriptor whose YUV422ReconSupport flag
is already set, used to refute the only-if direction of C5. -/
def c5Caps : EncodeCaps :=
  { MaxNum_Reference0 := 4, MaxNum_Reference1 := 1
  , SliceIPOnly := false, Color420Only := false
  , YUV422ReconSupport := true, bSingleSliceMultiTile := false }

/-- C5 counterexample: with LowPower explicitly on and a descriptor
whose YUV422ReconSupport flag is already set, after the baseline
pass the flag is still set although the claimed condition (device
not 4:2:0-only AND power-efficient disabled) is false: the code
OR-assigns the flag, so the claimed equivalence fails. -/
theorem c5_yuv422_counterexample :
    (hardcodeCapsBaseline
        { LowPower := MFX_CODINGOPTION_ON, TargetUsage := 4 }
        c5Caps).YUV422ReconSupport = true ∧
    ¬((!c5Caps.Color420Only && IsOff MFX_CODINGOPTION_ON) = true) := by
  decide

/-- C5 (amended): after the baseline pass, SliceIPOnly holds iff
LowPower is explicitly on and TargetUsage equals 7; and
YUV422ReconSupport holds iff it already held before the pass or the
device is not 4:2:0-only and LowPower is explicitly off. -/
theorem c5_baseline_caps (par : ParMfx) (caps : EncodeCaps) :
    ((hardcodeCapsBaseline par caps).SliceIPOnly = true ↔
      (IsOn par.LowPower = true ∧ par.TargetUsage = 7)) ∧
    ((hardcodeCapsBaseline par caps).YUV422ReconSupport = true ↔
      (caps.YUV422ReconSupport = true ∨
        (caps.Color420Only = false ∧ IsOff par.LowPower = true))) := by
  constructor
  · simp [hardcodeCapsBaseline]
  · simp [hardcodeCapsBaseline]

/-! ### Async submission protocol of simple_encode_hevc10.cpp
The inner for-loop around EncodeFrameAsync is modelled as a function
over the sequence of device responses: each loop iteration consumes
one response (status plus whether a sync point was produced). -/

/-- One EncodeFrameAsync response: the returned status and whether a
sync point (completion handle) was produced. -/
structure Resp where
  sts : Int
  hasSync : Bool
deriving DecidableEq, Repr

/-- Result of the submit retry loop: the status and sync-point flag
it exits with, the number of device-busy sleeps performed, the
number of EncodeFrameAsync calls made, and whether the loop exited
(false means the response sequence ran out mid-retry). -/
structure LoopResult where
  sts : Int
  hasSync : Bool
  sleeps : Nat
  calls : Nat
  exited : Bool
deriving DecidableEq, Repr

/-- The inner for-loop of both encoding stages: repeat while the
status is a warning and no sync point was produced (sleeping one
quantum when the warning is device-busy); on warning with a sync
point, replace the status by MFX_ERR_NONE and exit; otherwise
(success, insufficient-buffer, or any error) exit with the status
unchanged. -/
def encodeRetryLoop : List Resp → Nat → Nat → LoopResult
  | [], sleeps, calls => ⟨MFX_ERR_NONE, false, sleeps, calls, false⟩
  | r :: rest, sleeps, calls =>
    if MFX_ERR_NONE < r.sts ∧ r.hasSync = false then
      encodeRetryLoop rest
        (sleeps + (if r.sts = MFX_WRN_DEVICE_BUSY then 1 else 0)) (calls + 1)
    else if MFX_ERR_NONE < r.sts ∧ r.hasSync = true then
      ⟨MFX_ERR_NONE, true, sleeps, calls + 1, true⟩
    else
      ⟨r.sts, r.hasSync, sleeps, calls + 1, true⟩

/-- The number of device-busy responses in a list. -/
def busyCount (rs : List Resp) : Nat :=
  (rs.filter (fun r => r.sts == MFX_WRN_DEVICE_BUSY)).length

theorem busyCount_cons (w : Resp) (ws : List Resp) :
    busyCount (w :: ws) =
      (if w.sts = MFX_WRN_DEVICE_BUSY then 1 else 0) + busyCount ws := by
  simp only [busyCount, List.filter_cons]
  by_cases h : w.sts = MFX_WRN_DEVICE_BUSY
  · simp [h, Nat.add_comm]
  · simp [h]

theorem encodeRetryLoop_skip (ws : List Resp) (rest : List Resp)
    (s c : Nat) (hw : ∀ w ∈ ws, MFX_ERR_NONE < w.sts ∧ w.hasSync = false) :
    encodeRetryLoop (ws ++ rest) s c =
      encodeRetryLoop rest (s + busyCount ws) (c + ws.length) := by
  induction ws generalizing s c with
  | nil => simp [busyCount]
  | cons w ws ih =>
    have hwh := hw w (List.mem_cons_self w ws)
    have htail : ∀ x ∈ ws, MFX_ERR_NONE < x.sts ∧ x.hasSync = false :=
      fun x hx => hw x (List.mem_cons_of_mem w hx)
    rw [List.cons_append, encodeRetryLoop, if_pos hwh, ih _ _ htail,
      busyCount_cons]
    congr 1
    · rw [Nat.add_assoc]
    · rw [List.length_cons]
      omega

/-- The guard after the retry loop (lines 259 and 296):
synchronization runs only when the loop exited with MFX_ERR_NONE. -/
def syncGuard (sts : Int) : Bool := sts == MFX_ERR_NONE

/-- The stage-1 while condition (line 235): continue feeding while
the status is non-negative or equals MFX_ERR_MORE_DATA. -/
def encodeLoopContinues (sts : Int) : Bool :=
  (decide (MFX_ERR_NONE ≤ sts)) || (sts == MFX_ERR_MORE_DATA)

/-- MSDK_IGNORE_MFX_STS (lines 275 and 312): replace the target
status by MFX_ERR_NONE, pass any other status through; the
following MSDK_CHECK_RESULT returns any non-NONE status to the
caller. -/
def MSDK_IGNORE_MFX_STS (sts target : Int) : Int :=
  if sts == target then MFX_ERR_NONE else sts

/-- One stage-1 submission round paired with the bitstream buffer
capacity (mfxBS.MaxLength): nothing in the loop writes the
capacity; the MFX_ERR_NOT_ENOUGH_BUFFER branch (lines 252-254)
holds only a placeholder comment and breaks out of the loop. -/
def stage1Submit (bufCap : Nat) (resps : List Resp) : LoopResult × Nat :=
  (encodeRetryLoop resps 0 0, bufCap)

/-- C6 counterexample: with buffer capacity 100, a first response of
MFX_ERR_NOT_ENOUGH_BUFFER exits the loop after a single
EncodeFrameAsync call — the second (would-be retry) response is
never submitted and the buffer capacity is unchanged, refuting the
claim that the engine grows the buffer before the caller retries;
the status also ends the stage-1 while loop. -/
theorem c6_buffer_growth_counterexample :
    stage1Submit 100
        [{ sts := MFX_ERR_NOT_ENOUGH_BUFFER, hasSync := false },
         { sts := MFX_ERR_NONE, hasSync := true }] =
      ({ sts := MFX_ERR_NOT_ENOUGH_BUFFER, hasSync := false
       , sleeps := 0, calls := 1, exited := true }, 100) ∧
    encodeLoopContinues MFX_ERR_NOT_ENOUGH_BUFFER = false := by
  decide

/-- C6 (amended): whenever EncodeFrameAsync reports
MFX_ERR_NOT_ENOUGH_BUFFER, the submission loop exits at once with
that status after the single call — the buffer is not grown and the
submission is not retried (growth is left as a placeholder
comment); the status ends the encode loop and survives the
MORE_DATA filter, so it is propagated to the caller as the capacity
condition rather than silently dropped. -/
theorem c6_buffer_capacity_condition (bufCap : Nat) (rest : List Resp) :
    stage1Submit bufCap
        ({ sts := MFX_ERR_NOT_ENOUGH_BUFFER, hasSync := false } :: rest) =
      ({ sts := MFX_ERR_NOT_ENOUGH_BUFFER, hasSync := false
       , sleeps := 0, calls := 1, exited := true }, bufCap) ∧
    encodeLoopContinues MFX_ERR_NOT_ENOUGH_BUFFER = false ∧
    MSDK_IGNORE_MFX_STS MFX_ERR_NOT_ENOUGH_BUFFER MFX_ERR_MORE_DATA =
      MFX_ERR_NOT_ENOUGH_BUFFER := by
  refine ⟨?_, by decide, by decide⟩
  simp [stage1Submit, encodeRetryLoop, MFX_ERR_NONE, MFX_ERR_NOT_ENOUGH_BUFFER]

/-- C7: the retry loop passes over every response that is a warning
without a sync point — re-submitting identically each time and
sleeping one quantum exactly for the device-busy ones — and exits
precisely at the first response that carries a sync point or a
non-warning status; a warning is never treated as a failure (on
exit at a warning with a sync point the status becomes
MFX_ERR_NONE). -/
theorem c7_busy_retry (ws rest : List Resp) (r : Resp)
    (hw : ∀ w ∈ ws, MFX_ERR_NONE < w.sts ∧ w.hasSync = false)
    (hr : ¬(MFX_ERR_NONE < r.sts ∧ r.hasSync = false)) :
    encodeRetryLoop (ws ++ r :: rest) 0 0 =
      if MFX_ERR_NONE < r.sts then
        { sts := MFX_ERR_NONE, hasSync := true
        , sleeps := busyCount ws, calls := ws.length + 1, exited := true }
      else
        { sts := r.sts, hasSync := r.hasSync
        , sleeps := busyCount ws, calls := ws.length + 1, exited := true } := by
  rw [encodeRetryLoop_skip ws (r :: rest) 0 0 hw]
  by_cases hpos : MFX_ERR_NONE < r.sts
  · have hs : r.hasSync = true := by
      rcases Bool.eq_false_or_eq_true r.hasSync with hb | hb
      · exact hb
      · exact absurd ⟨hpos, hb⟩ hr
    simp [encodeRetryLoop, hpos, hs]
  · simp [encodeRetryLoop, hpos]

/-- Witness for C7: two warnings without sync point (device-busy,
then another warning) are retried with one sleep, and the loop
exits at a warning carrying a sync point with status replaced by
MFX_ERR_NONE. -/
theorem c7_busy_retry_witness :
    (∀ w ∈ [({ sts := MFX_WRN_DEVICE_BUSY, hasSync := false } : Resp),
            { sts := 1, hasSync := false }],
        MFX_ERR_NONE < w.sts ∧ w.hasSync = false) ∧
    ¬(MFX_ERR_NONE < (1 : Int) ∧ (true = false)) ∧
    encodeRetryLoop
        ([({ sts := MFX_WRN_DEVICE_BUSY, hasSync := false } : Resp),
          { sts := 1, hasSync := false }] ++
          ({ sts := 1, hasSync := true } : Resp) :: []) 0 0 =
      if MFX_ERR_NONE < (1 : Int) then
        { sts := MFX_ERR_NONE, hasSync := true
        , sleeps := busyCount [{ sts := MFX_WRN_DEVICE_BUSY, hasSync := false },
                               { sts := 1, hasSync := false }]
        , calls := [({ sts := MFX_WRN_DEVICE_BUSY, hasSync := false } : Resp),
                    { sts := 1, hasSync := false }].length + 1
        , exited := true }
      else
        { sts := 1, hasSync := true
        , sleeps := busyCount [{ sts := MFX_WRN_DEVICE_BUSY, hasSync := false },
                               { sts := 1, hasSync := false }]
        , calls := [({ sts := MFX_WRN_DEVICE_BUSY, hasSync := false } : Resp),
                    { sts := 1, hasSync := false }].length + 1
        , exited := true } :=
  ⟨by decide, by decide,
   c7_busy_retry
     [{ sts := MFX_WRN_DEVICE_BUSY, hasSync := false },
      { sts := 1, hasSync := false }]
     [] { sts := 1, hasSync := true } (by decide) (by decide)⟩

/-- C8: whenever EncodeFrameAsync returns a warning status together
with a sync point, the loop exits at once with the status replaced
by MFX_ERR_NONE, and the post-loop guard then sends the submission
to synchronization: a warning with a handle is treated as success,
never as a failure. -/
theorem c8_warning_with_handle (r : Resp) (rest : List Resp) (s c : Nat)
    (h1 : MFX_ERR_NONE < r.sts) (h2 : r.hasSync = true) :
    encodeRetryLoop (r :: rest) s c =
      { sts := MFX_ERR_NONE, hasSync := true
      , sleeps := s, calls := c + 1, exited := true } ∧
    syncGuard (encodeRetryLoop (r :: rest) s c).sts = true := by
  have hloop : encodeRetryLoop (r :: rest) s c =
      { sts := MFX_ERR_NONE, hasSync := true
      , sleeps := s, calls := c + 1, exited := true } := by
    simp [encodeRetryLoop, h1, h2]
  exact ⟨hloop, by simp [hloop, syncGuard]⟩

/-- Witness for C8: a device-busy warning accompanied by a sync
point exits with success and passes the synchronization guard. -/
theorem c8_warning_with_handle_witness :
    MFX_ERR_NONE < MFX_WRN_DEVICE_BUSY ∧
    ((true : Bool) = true) ∧
    (encodeRetryLoop [{ sts := MFX_WRN_DEVICE_BUSY, hasSync := true }] 0 0 =
      { sts := MFX_ERR_NONE, hasSync := true
      , sleeps := 0, calls := 1, exited := true } ∧
     syncGuard (encodeRetryLoop
        [{ sts := MFX_WRN_DEVICE_BUSY, hasSync := true }] 0 0).sts = true) :=
  ⟨by decide, rfl,
   c8_warning_with_handle { sts := MFX_WRN_DEVICE_BUSY, hasSync := true }
     [] 0 0 (by decide) rfl⟩

/-! ### Drain phase (stage 2, lines 281-313) -/

/-- The null-submission device model for the drain phase: while
buffered frames remain, EncodeFrameAsync(NULL, NULL, ...) succeeds
and yields a sync point for the next buffered frame; once none
remain it returns MFX_ERR_MORE_DATA with no sync point. -/
def drainSubmit (buffered : Nat) : Int × Bool :=
  if 0 < buffered then (MFX_ERR_NONE, true) else (MFX_ERR_MORE_DATA, false)

/-- The stage-2 while condition (line 281): continue draining while
the status is non-negative. -/
def drainLoopContinues (sts : Int) : Bool := decide (MFX_ERR_NONE ≤ sts)

/-- Stage 2 of the tutorial: submit null; on MFX_ERR_NONE run
SyncOperation (one Submit/Synchronize pair, one buffered frame
retrieved) and loop; any other status ends the round, and the while
condition decides whether the loop goes on. Returns the number of
Submit/Synchronize pairs performed and the final status. -/
def drainLoop : Nat → Nat → Nat × Int
  | 0, pairs => (pairs, (drainSubmit 0).1)
  | b + 1, pairs =>
    if (drainSubmit (b + 1)).1 = MFX_ERR_NONE then drainLoop b (pairs + 1)
    else (pairs, (drainSubmit (b + 1)).1)

theorem drainLoop_count (b p : Nat) :
    drainLoop b p = (p + b, MFX_ERR_MORE_DATA) := by
  induction b generalizing p with
  | zero =>
    simp [drainLoop, drainSubmit, MFX_ERR_MORE_DATA, MFX_ERR_NONE]
  | succ b ih =>
    rw [drainLoop]
    simp only [drainSubmit, Nat.zero_lt_succ, if_pos, if_true]
    rw [ih]
    congr 1
    omega

/-- C9: from K buffered frames at feed exhaustion, the drain loop
performs exactly K successful null-Submit/Synchronize pairs and
then stops at the MFX_ERR_MORE_DATA returned for the null
submission with no buffered frame left; that status ends the while
loop (zero further pairs), and after the MORE_DATA filter the
session reaches teardown with success. -/
theorem c9_drain_exactly_k (K : Nat) :
    drainLoop K 0 = (K, MFX_ERR_MORE_DATA) ∧
    drainSubmit 0 = (MFX_ERR_MORE_DATA, false) ∧
    drainLoopContinues MFX_ERR_MORE_DATA = false ∧
    MSDK_IGNORE_MFX_STS MFX_ERR_MORE_DATA MFX_ERR_MORE_DATA = MFX_ERR_NONE := by
  refine ⟨?_, by decide, by decide, by decide⟩
  have := drainLoop_count K 0
  simpa using this

/-! ### Frame-surface pool acquisition (C10, lines 236-237) -/

/-- Modelled from the spec: GetFreeSurfaceIndex from the tutorial
common utilities (not under src/) scans the fixed frame-surface
pool (each surface carries an in-use flag) and returns the index of
the first surface not in use, or MFX_ERR_NOT_FOUND when every
surface is in use. -/
def GetFreeSurfaceIndex : List Bool → Int
  | [] => MFX_ERR_NOT_FOUND
  | inUse :: rest =>
    if inUse then
      let r := GetFreeSurfaceIndex rest
      if r = MFX_ERR_NOT_FOUND then MFX_ERR_NOT_FOUND else r + 1
    else 0

/-- Modelled from the spec: MSDK_CHECK_ERROR(expected, actual, err)
from the tutorial common utilities (not under src/) makes the
program return err as soon as actual equals expected. Lines
236-237: acquiring a surface either yields a free index at once or
halts the encode loop with MFX_ERR_MEMORY_ALLOC; there is no
blocking, sleeping or retrying branch. -/
def feedAcquireSurface (pool : List Bool) : Except Int Nat :=
  let idx := GetFreeSurfaceIndex pool
  if idx = MFX_ERR_NOT_FOUND then Except.error MFX_ERR_MEMORY_ALLOC
  else Except.ok idx.toNat

theorem GetFreeSurfaceIndex_all_inuse :
    ∀ pool : List Bool, (∀ b ∈ pool, b = true) →
      GetFreeSurfaceIndex pool = MFX_ERR_NOT_FOUND
  | [], _ => rfl
  | b :: bs, h => by
    have hb : b = true := h b (List.mem_cons_self b bs)
    have ih := GetFreeSurfaceIndex_all_inuse bs
      (fun x hx => h x (List.mem_cons_of_mem b hx))
    simp [GetFreeSurfaceIndex, hb, ih]

/-- C10: whenever every surface in the pool is in use, the feeding
loop halts at once with MFX_ERR_MEMORY_ALLOC — the acquisition is a
single scan followed by the check macro, with no blocking, sleeping
or retrying path. -/
theorem c10_pool_exhausted (pool : List Bool)
    (h : ∀ b ∈ pool, b = true) :
    GetFreeSurfaceIndex pool = MFX_ERR_NOT_FOUND ∧
    feedAcquireSurface pool = Except.error MFX_ERR_MEMORY_ALLOC := by
  have hidx := GetFreeSurfaceIndex_all_inuse pool h
  exact ⟨hidx, by simp [feedAcquireSurface, hidx]⟩

/-- Witness for C10 on a pool of two surfaces, both in use. -/
theorem c10_pool_exhausted_witness :
    (∀ b ∈ [true, true], b = true) ∧
    (GetFreeSurfaceIndex [true, true] = MFX_ERR_NOT_FOUND ∧
     feedAcquireSurface [true, true] = Except.error MFX_ERR_MEMORY_ALLOC) :=
  ⟨by decide, c10_pool_exhausted [true, true] (by decide)⟩
